import Mathlib

/-!
Verification development for the YCast vTuner-emulation server
(`src/ycast.py`).  The Python program is shallowly embedded below:

* the nested YAML station configuration becomes the mutual inductives
  `YVal`/`YDict` (a mapping whose values are either nested mappings or
  station strings; Python dict insertion order is the list order);
* `set_station_by_id`'s inner `walktree` becomes `walktreeVal`/`walktree`,
  which simultaneously rewrites string leaves into `(id, url)` tuples
  (`SVal.station`) and extends the `stations_by_id` index;
* the HTTP layer is made explicit: the handler `do_GET` becomes `do_GET`,
  a pure function of the redirect-resolution oracle (`HttpOracle`, standing
  for the `urllib3` request in `filter_url`), the current content of the
  configuration file (`FileInput`, standing for `open`+`yaml.load`), the
  content of the persistent `self.stations_by_id` index accumulated by
  earlier requests (`stations_by_id` is created once in
  `StationSource.__init__` and never cleared, only updated by each walk),
  and the raw request target `self.path`;
* Python exceptions become `Except PyErr` values; an exception escaping
  `do_GET` is the outcome `Outcome.crash`, `sys.exit(n)` after one log
  line is `Outcome.exitProcess n 1`;
* the XML documents are abstracted to their item structure (`XItem`,
  `Response`): exactly the fields the handler writes (`ItemType`, `Title`,
  `UrlDir`, `DirCount`, `StationName`, `StationId`, `StationUrl`, and the
  literal top-level `DirCount` text `'9'` of `reply_with_dir`, modelled by
  the `Bool` flag of `Response.xmlList`).

Python string primitives (`split`, `partition`, `startswith`, `in`,
`str.lower`, `int(...)`, slicing, `urllib.parse.parse_qs/quote/unquote`)
are re-implemented on `List Char` so that every definition evaluates
inside the kernel.  `str.lower` and percent-decoding are modelled for
ASCII data, which covers every configured name the claims touch.
-/

namespace YCast

/-! ## Python string primitives -/

/-- Split a character list at every occurrence of `sep`
(Python `str.split(sep)` for a one-character separator;
`''.split(sep) = ['']` is matched by the base case). -/
def splitChar (sep : Char) : List Char → List (List Char)
  | [] => [[]]
  | c :: rest =>
    match splitChar sep rest with
    | [] => [[]]
    | h :: t => if c == sep then [] :: h :: t else (c :: h) :: t

/-- Join character lists with `sep` (Python `sep.join`). -/
def joinChar (sep : Char) : List (List Char) → List Char
  | [] => []
  | [x] => x
  | x :: y :: t => x ++ sep :: joinChar sep (y :: t)

/-- Does `pre` occur at the head of `s`? -/
def subAt : List Char → List Char → Bool
  | [], _ => true
  | _ :: _, [] => false
  | a :: as, b :: bs => a == b && subAt as bs

/-- Python `s.startswith(pre)`. -/
def pyStartsWith (s pre : String) : Bool := subAt pre.data s.data

/-- Python `needle in hay` on character lists. -/
def containsSubL (needle : List Char) : List Char → Bool
  | [] => needle.isEmpty
  | b :: bs => subAt needle (b :: bs) || containsSubL needle bs

/-- Python `needle in hay` for strings. -/
def containsSub (needle hay : String) : Bool := containsSubL needle.data hay.data

/-- Accumulate decimal digits; fails on any non-digit. -/
def parseDigits : List Char → Nat → Option Nat
  | [], acc => some acc
  | c :: rest, acc =>
    if c.isDigit then parseDigits rest (10 * acc + (c.toNat - 48)) else none

/-- Python `int(s)` restricted to plain decimal numerals with an optional
sign (the only shapes the protocol's numeric query parameters take);
any other string raises `ValueError`, modelled as `none`. -/
def pyInt (s : String) : Option Int :=
  match s.data with
  | [] => none
  | '-' :: c :: rest => (parseDigits (c :: rest) 0).map fun n => -(n : Int)
  | '+' :: c :: rest => (parseDigits (c :: rest) 0).map fun n => (n : Int)
  | l => (parseDigits l 0).map fun n => (n : Int)

/-- Value of a hexadecimal digit character. -/
def hexVal (c : Char) : Option Nat :=
  if '0' ≤ c ∧ c ≤ '9' then some (c.toNat - 48)
  else if 'A' ≤ c ∧ c ≤ 'F' then some (c.toNat - 55)
  else if 'a' ≤ c ∧ c ≤ 'f' then some (c.toNat - 87)
  else none

/-- Percent-decoding on character lists (`urllib.parse.unquote`, for
single-byte (ASCII) escapes; a malformed escape passes through verbatim,
as in Python). -/
def unquoteL : List Char → List Char
  | '%' :: a :: b :: rest =>
    match hexVal a, hexVal b with
    | some x, some y => Char.ofNat (16 * x + y) :: unquoteL rest
    | _, _ => '%' :: unquoteL (a :: b :: rest)
  | c :: rest => c :: unquoteL rest
  | [] => []

/-- Python `urllib.parse.unquote`. -/
def unquote (s : String) : String := String.mk (unquoteL s.data)

/-- Python `urllib.parse.unquote_plus`: `+` becomes a space, then
percent-decoding. -/
def unquote_plus (s : String) : String :=
  unquote (String.mk (s.data.map fun c => if c == '+' then ' ' else c))

/-- Uppercase hexadecimal digit for `quote`. -/
def hexDigit (n : Nat) : Char :=
  if n < 10 then Char.ofNat (48 + n) else Char.ofNat (55 + n)

/-- Characters `urllib.parse.quote` leaves unescaped
(alphanumerics, `_.-~` and the default safe character `/`). -/
def quoteSafe (c : Char) : Bool :=
  c.isAlphanum || c == '_' || c == '.' || c == '-' || c == '~' || c == '/'

/-- Python `urllib.parse.quote` (ASCII range). -/
def quote (s : String) : String :=
  String.mk (List.flatten (s.data.map fun c =>
    if quoteSafe c then [c]
    else ['%', hexDigit (c.toNat / 16 % 16), hexDigit (c.toNat % 16)]))

/-- Python `s.partition(sep)` for a one-character separator: the part before
the first occurrence of `sep`, the separator, and the part after; when `sep`
does not occur, `(s, '', '')`. -/
def breakAtChar (sep : Char) : List Char → Option (List Char × List Char)
  | [] => none
  | c :: rest =>
    if c == sep then some ([], rest)
    else (breakAtChar sep rest).map fun p => (c :: p.1, p.2)

/-- Python `s.partition(sep)` (one-character separator). -/
def pyPartitionChar (s : String) (sep : Char) : String × String × String :=
  match breakAtChar sep s.data with
  | none => (s, "", "")
  | some (a, b) => (String.mk a, String.mk [sep], String.mk b)

/-- Lowercase a string character-wise (Python `str.lower`, ASCII range). -/
def pyLower (s : String) : String := String.mk (s.data.map Char.toLower)

/-- Code-point comparison of characters, as in Python string ordering. -/
def charLt (a b : Char) : Bool := a.toNat < b.toNat

/-- Lexicographic code-point order on character lists
(Python `<` on strings). -/
def lexLt : List Char → List Char → Bool
  | _, [] => false
  | [], _ :: _ => true
  | a :: as, b :: bs =>
    if charLt a b then true else if charLt b a then false else lexLt as bs

/-- The comparison `sorted(..., key=str.lower)` sorts by: `a` may come
before `b` iff `a.lower() <= b.lower()`. -/
def keyLe (a b : String) : Bool := !lexLt (pyLower b).data (pyLower a).data

/-- `keyLe` as a relation, for `List.insertionSort`. -/
def keyLeP (a b : String) : Prop := keyLe a b = true

instance : DecidableRel keyLeP :=
  fun a b => inferInstanceAs (Decidable (keyLe a b = true))

/-- Resolve one Python slice index against a length: negative indices count
from the end (clipped at 0), positive ones are clipped at the length. -/
def pyIndex (len : Nat) (i : Int) : Nat :=
  if i < 0 then ((len : Int) + i).toNat else min i.toNat len

/-- Python slice `l[i:j]`. -/
def pySlice {α : Type} (l : List α) (i j : Int) : List α :=
  (l.take (pyIndex l.length j)).drop (pyIndex l.length i)

/-! ## Constants from the top of `ycast.py` -/

def VTUNER_DNS : String := "http://radioyamaha.vtuner.com"

def VTUNER_INITURL : String := "/setupapp/Yamaha/asp/BrowseXML/loginXML.asp"

def VTUNER_STATURL : String := "/setupapp/Yamaha/asp/BrowseXML/statxml.asp"

def YCAST_LOCATION : String := "ycast"

def DEFAULTSTATION : String :=
  "Radio Paradise - auto:http://stream.radioparadise.com/mp3-192"

/-! ## The configuration tree and the catalog -/

mutual
/-- A value in the loaded YAML mapping: a station descriptor string or a
nested mapping (the two shapes `walktree` distinguishes with
`isinstance`). -/
inductive YVal where
  | str (s : String)
  | dict (d : YDict)
deriving DecidableEq
/-- A YAML mapping in its stored (insertion) order. -/
inductive YDict where
  | nil
  | cons (k : String) (v : YVal) (rest : YDict)
deriving DecidableEq
end

mutual
/-- A value of `self.stations` after `set_station_by_id` ran: string leaves
have been replaced in place by the tuple `(station_id, url)`. -/
inductive SVal where
  | station (id : Nat) (url : String)
  | dict (d : SDict)
/-- A mapping of the rewritten tree. -/
inductive SDict where
  | nil
  | cons (k : String) (v : SVal) (rest : SDict)
end

def YDict.keys : YDict → List String
  | .nil => []
  | .cons k _ rest => k :: rest.keys

/-- Python `d[k]` for the stored configuration (first binding wins; an
actual Python dict has no duplicate keys). -/
def YDict.find? : YDict → String → Option YVal
  | .nil, _ => none
  | .cons k v rest, key => if k == key then some v else rest.find? key

def SDict.keys : SDict → List String
  | .nil => []
  | .cons k _ rest => k :: rest.keys

def SDict.find? : SDict → String → Option SVal
  | .nil, _ => none
  | .cons k v rest, key => if k == key then some v else rest.find? key

/-- Number of entries of a mapping (Python `len` on a dict). -/
def SDict.size : SDict → Nat
  | .nil => 0
  | .cons _ _ rest => rest.size + 1

/-- Python `len` of a stored value: a nested dict has its entry count, the
`(station_id, url)` tuple a station was rewritten to has length 2. -/
def SVal.pyLen : SVal → Nat
  | .dict d => d.size
  | .station _ _ => 2

mutual
/-- One value step of `walktree` inside `set_station_by_id`: a string leaf
under key `k` is rewritten to the tuple `(station_id, data)`, the pair
`(key, data)` is recorded in `stations_by_id`, and the counter advances;
a nested dict is walked recursively first (`station_id = walktree(data,
station_id)`).  Returns the rewritten value, the `stations_by_id`
additions in insertion order, and the next counter value. -/
def walktreeVal (k : String) : YVal → Nat → SVal × List (Nat × String × String) × Nat
  | .str s, n => (.station n s, [(n, k, s)], n + 1)
  | .dict d, n =>
    let r := walktree d n
    (.dict r.1, r.2.1, r.2.2)
/-- The `for key, data in directory.items()` loop of `walktree`, in stored
order. -/
def walktree : YDict → Nat → SDict × List (Nat × String × String) × Nat
  | .nil, n => (.nil, [], n)
  | .cons k v rest, n =>
    let rv := walktreeVal k v n
    let rr := walktree rest rv.2.2
    (.cons k rv.1 rr.1, rv.2.1 ++ rr.2.1, rr.2.2)
end

/-- `StationSource.set_station_by_id`: walk `self.stations` starting from
station id 1, producing the rewritten tree and the `stations_by_id`
index (as the association list of `(id, (name, url))` insertions). -/
def set_station_by_id (stations : YDict) : SDict × List (Nat × String × String) :=
  let r := walktree stations 1
  (r.1, r.2.1)

/-- The in-memory state of a `StationSource` after `get_stations` ran:
`self.stations` (rewritten tree) and `self.stations_by_id`. -/
structure Catalog where
  stations : SDict
  byId : List (Nat × String × String)

/-- Building the catalog from a loaded configuration mapping in a fresh
process, whose `self.stations_by_id` (initialised to `{}` in `__init__`)
is still empty. -/
def build (stations : YDict) : Catalog :=
  ⟨(set_station_by_id stations).1, (set_station_by_id stations).2⟩

/-- `StationSource.by_id`: `self.stations_by_id[station_id]`, `none` for a
`KeyError`.  The query id arrives as a Python int, hence `Int`. -/
def by_id (cat : Catalog) (station_id : Int) : Option (Nat × String × String) :=
  cat.byId.find? fun e => ((e.1 : Nat) : Int) == station_id

/-! ## Python exceptions and the external collaborators -/

/-- The Python exceptions the handler can encounter. -/
inductive PyErr where
  | keyError
  | typeError
  | valueError
  | yamlError
  | attributeError
  | httpError
deriving DecidableEq

/-- Result of the one `urllib3` request `filter_url` may make: the request
itself may raise, otherwise `get_redirect_location()` returns the
`Location` value for a redirect response and `False`/`None` otherwise
(modelled by `Option String`). -/
inductive HttpResult where
  | raise
  | resp (redirectLocation : Option String)

/-- The network, as an oracle from URL to result of the request. -/
def HttpOracle : Type := String → HttpResult

/-- `filter_url`: for a `streamtheworld.com/` URL, perform the request and
return whatever `get_redirect_location()` yields (possibly `None`,
modelled `none`), letting any network exception escape; every other URL
passes through unchanged. -/
def filter_url (http : HttpOracle) (url : String) : Except PyErr (Option String) :=
  if containsSub "streamtheworld.com/" url then
    match http url with
    | .raise => .error .httpError
    | .resp loc => .ok loc
  else .ok (some url)

/-! ## Loading the configuration (`get_stations`) -/

/-- The top-level value `yaml.load` produced: a mapping, or anything else
(string, list, `None` from an empty file, ...) on which `walktree`'s
`.items()` raises `AttributeError`. -/
inductive YamlDoc where
  | mapping (es : YDict)
  | nonMapping

/-- The state of the configuration source when a request arrives: the file
(and the bundled fallback `stations.yml`) is missing, its text is not
parseable YAML, or it parses to a document. -/
inductive FileInput where
  | missing
  | unparsable
  | doc (d : YamlDoc)

/-- Outcome of `StationSource.get_stations`. -/
inductive LoadOutcome where
  | exited (code logLines : Nat)
  | raised (e : PyErr)
  | ok (cat : Catalog)

def LoadOutcome.isExited : LoadOutcome → Bool
  | .exited _ _ => true
  | _ => false

/-- `StationSource.get_stations`: reload the YAML source.  A missing file
(`FileNotFoundError`) is caught, logged once and answered with
`sys.exit(1)`; a YAML parse error propagates; a non-mapping document makes
`walktree(self.stations)` raise `AttributeError` on `.items()`; a mapping
is rewritten by `set_station_by_id`.

`self.stations` is replaced wholesale by the fresh load, but
`self.stations_by_id` is created once in `__init__` and never cleared: the
walk only executes `self.stations_by_id[station_id] = (key, data)`, each
insertion overwriting any entry with the same id while entries of earlier
generations whose ids are not re-assigned survive.  The code reads the
index only through `by_id` (key lookup), so the dict is modelled as an
association list with first-match lookup, the fresh generation's entries
in front of the prior content `stations_by_id`. -/
def get_stations (file : FileInput)
    (stations_by_id : List (Nat × String × String)) : LoadOutcome :=
  match file with
  | .missing => .exited 1 1
  | .unparsable => .raised .yamlError
  | .doc (.mapping es) =>
    .ok ⟨(set_station_by_id es).1, (set_station_by_id es).2 ++ stations_by_id⟩
  | .doc .nonMapping => .raised .attributeError

/-! ## The protocol responder -/

/-- One `Item` element of a reply: a directory entry
(`ItemType=Dir`, `Title`, `UrlDir`, `DirCount`) or a station entry
(`ItemType=Station`, `StationName`, `StationId`, `StationUrl`; the URL text
is `Option` because `etree` accepts `None` for a missing redirect). -/
inductive XItem where
  | dir (title urlDir dirCount : String)
  | station (stationName stationId : String) (stationUrl : Option String)
deriving DecidableEq

def titleOf : XItem → String
  | .dir t _ _ => t
  | .station n _ _ => n

def XItem.isStation : XItem → Bool
  | .dir _ _ _ => false
  | .station _ _ _ => true

/-- A reply the handler writes: the handshake token document, a
`ListOfItems` document (`rootDirCountNine` records the literal top-level
`DirCount` text `'9'` that only `reply_with_dir` emits), or
`send_error(404)`. -/
inductive Response where
  | token
  | xmlList (rootDirCountNine : Bool) (items : List XItem)
  | notFound
deriving DecidableEq

/-- Outcome of one `do_GET` invocation: a reply was written, an exception
escaped the handler, or the process exited (`sys.exit`) after the given
number of diagnostic log lines. -/
inductive Outcome where
  | resp (r : Response)
  | crash (e : PyErr)
  | exitProcess (code logLines : Nat)
deriving DecidableEq

/-- The `UrlDir` the handler synthesises for a category. -/
def dirUrl (category : String) : String :=
  VTUNER_DNS ++ "/" ++ YCAST_LOCATION ++ "?category=" ++ quote category

/-- `sorted(stations, key=str.lower)`: the keys in stable case-insensitive
lexicographic order. -/
def sortKeys (d : SDict) : List String := List.insertionSort keyLeP d.keys

/-- `YCastHandler.reply_with_dir`: every listed child becomes a directory
item whose `DirCount` is `len(stations[category])`; the window is the
Python slice `[start : start + max_size]` of the sorted key list.  The
fixed top-level `DirCount '9'` is recorded at the call sites. -/
def reply_with_dir (stations : SDict) (start max_size : Int) : List XItem :=
  (pySlice (sortKeys stations) start (start + max_size)).map fun category =>
    XItem.dir category (dirUrl category)
      (toString (SVal.pyLen ((stations.find? category).getD (.dict .nil))))

/-- Python `current_dir[category]`: indexing a dict misses with `KeyError`;
indexing the `(id, url)` tuple a station was rewritten to with a string
raises `TypeError`. -/
def pyGetItem : SVal → String → Except PyErr SVal
  | .dict es, k =>
    match es.find? k with
    | some v => .ok v
    | none => .error .keyError
  | .station _ _, _ => .error .typeError

/-- The `for category in hierarchy` walk of `by_hierarchy`. -/
def walkPath : List String → SVal → Except PyErr SVal
  | [], cur => .ok cur
  | seg :: rest, cur =>
    match pyGetItem cur seg with
    | .ok nxt => walkPath rest nxt
    | .error e => .error e

/-- `StationSource.by_hierarchy`: split the long category name on `|` and
index level by level, starting at `self.stations`. -/
def by_hierarchy (stations : SDict) (long_category : String) : Except PyErr SVal :=
  walkPath ((splitChar '|' long_category.data).map String.mk) (.dict stations)

/-- One iteration of the `reply_with_mixed_list` loop: a nested dict
becomes a directory item (with the extended category path and its entry
count as `DirCount`), a station tuple becomes a station item whose URL
goes through `filter_url`. -/
def buildItem (http : HttpOracle) (hierarchy : String) (es : SDict) (item : String) :
    Except PyErr XItem :=
  match es.find? item with
  | none => .error .keyError
  | some (.dict d) =>
    .ok (.dir item (dirUrl (hierarchy ++ "|" ++ item)) (toString d.size))
  | some (.station sid surl) =>
    match filter_url http surl with
    | .error e => .error e
    | .ok u => .ok (.station item (toString sid) u)

/-- Sequencing of the loop: an exception at any item aborts the whole
reply before anything is written. -/
def exceptCons (x : Except PyErr XItem) (t : Except PyErr (List XItem)) :
    Except PyErr (List XItem) :=
  match x with
  | .error e => .error e
  | .ok xi =>
    match t with
    | .ok tail => .ok (xi :: tail)
    | .error e => .error e

/-- The `reply_with_mixed_list` loop over the already-sliced sorted key
list. -/
def buildItems (http : HttpOracle) (hierarchy : String) (es : SDict) :
    List String → Except PyErr (List XItem)
  | [] => .ok []
  | item :: rest =>
    exceptCons (buildItem http hierarchy es item) (buildItems http hierarchy es rest)

/-- `YCastHandler.reply_with_mixed_list`: resolve the category path, then
list the children.  When the path lands on a station's `(id, url)` tuple,
`sorted(station_list, key=str.lower)` applies `str.lower` to the tuple's
int component and raises `TypeError`. -/
def reply_with_mixed_list (http : HttpOracle) (stations : SDict) (hierarchy : String)
    (start max_size : Int) : Except PyErr (List XItem) :=
  match by_hierarchy stations hierarchy with
  | .error e => .error e
  | .ok (.station _ _) => .error .typeError
  | .ok (.dict es) =>
    buildItems http hierarchy es (pySlice (sortKeys es) start (start + max_size))

/-- `urllib.parse.urlsplit(self.path)` reduced to what the handler uses:
the path (before the first `?`) and the raw query string. -/
def splitQ (raw : String) : String × String :=
  match splitChar '?' raw.data with
  | [] => (raw, "")
  | p :: rest => (String.mk p, String.mk (joinChar '?' rest))

/-- `urllib.parse.parse_qs` (with its defaults): split the query string on
`&`, drop fields with no `=` or an empty value, split each field at the
first `=`, and percent-plus-decode names and values.  The handler only ever
reads `[0]`, the first value of a key, so the list of pairs suffices. -/
def parse_qsl (qs : String) : List (String × String) :=
  (splitChar '&' qs.data).filterMap fun field =>
    match splitChar '=' field with
    | [] => none
    | [_] => none
    | k :: vs =>
      let v := joinChar '=' vs
      if v.isEmpty then none
      else some (unquote_plus (String.mk k), unquote_plus (String.mk v))

/-- `url_query_split[key][0]`, or `none` for the `KeyError` on a missing
key. -/
def qget (q : List (String × String)) (key : String) : Option String :=
  (q.find? fun p => p.1 == key).map fun p => p.2

/-- Lines 127-132 of `do_GET`: read `start` and `howmany`, falling back to
`start=1, size=8` when either name is missing (`except KeyError`); a
present but non-numeric value raises `ValueError`, which nothing
catches. -/
def tryPagination (q : List (String × String)) : Except PyErr (Int × Int) :=
  match qget q "start" with
  | none => .ok (1, 8)
  | some s =>
    match pyInt s with
    | none => .error .valueError
    | some start =>
      match qget q "howmany" with
      | none => .ok (1, 8)
      | some h =>
        match pyInt h with
        | none => .error .valueError
        | some size => .ok (start, size)

/-- The station-detail branch of `do_GET` (`VTUNER_STATURL`): look the id up
in `stations_by_id`; on `KeyError` substitute id `999999` and
`DEFAULTSTATION.partition('&')` as `(name, _, url)`; reply with the single
station item, its URL passed through `filter_url`. -/
def do_station_detail (http : HttpOracle) (cat : Catalog) (station_id : Int) : Outcome :=
  match by_id cat station_id with
  | some e =>
    match filter_url http e.2.2 with
    | .ok u => .resp (.xmlList false [.station e.2.1 (toString station_id) u])
    | .error err => .crash err
  | none =>
    match filter_url http (pyPartitionChar DEFAULTSTATION '&').2.2 with
    | .ok u =>
      .resp (.xmlList false
        [.station (pyPartitionChar DEFAULTSTATION '&').1 (toString (999999 : Int)) u])
    | .error err => .crash err

/-- The dispatch of `YCastHandler.do_GET` after `get_stations` returned, on
the raw request target `self.path`.  Branch order and conditions follow
lines 96-138 of the source: exact path match for the init URL, then
`startswith` for the status URL, the alias roots, then `/ycast?...`, else
404.  `int(...)` on a missing key is a `KeyError` crash, on a non-numeral a
`ValueError` crash; only the `reply_with_mixed_list` call is guarded by
`except KeyError`. -/
def dispatch (http : HttpOracle) (cat : Catalog) (raw : String) : Outcome :=
  let path := (splitQ raw).1
  let q := parse_qsl (splitQ raw).2
  if path == VTUNER_INITURL then
    if (qget q "token").isSome then
      .resp .token
    else
      match qget q "start" with
      | none => .crash .keyError
      | some s =>
        match pyInt s with
        | none => .crash .valueError
        | some start =>
          match qget q "howmany" with
          | none => .crash .keyError
          | some h =>
            match pyInt h with
            | none => .crash .valueError
            | some size =>
              .resp (.xmlList true (reply_with_dir cat.stations (start - 1) size))
  else if pyStartsWith raw VTUNER_STATURL then
    match qget q "id" with
    | none => .crash .keyError
    | some i =>
      match pyInt i with
      | none => .crash .valueError
      | some sid => do_station_detail http cat sid
  else if raw == "/" || raw == "/" ++ YCAST_LOCATION
      || raw == "/" ++ YCAST_LOCATION ++ "/" || pyStartsWith raw VTUNER_INITURL then
    .resp (.xmlList true (reply_with_dir cat.stations 0 8))
  else if pyStartsWith raw ("/" ++ YCAST_LOCATION ++ "?") then
    match qget q "category" with
    | none => .crash .keyError
    | some c0 =>
      let hierarchy := unquote c0
      match tryPagination q with
      | .error e => .crash e
      | .ok (start, size) =>
        match reply_with_mixed_list http cat.stations hierarchy (start - 1) size with
        | .ok items => .resp (.xmlList false items)
        | .error .keyError => .resp .notFound
        | .error e => .crash e
  else
    .resp .notFound

/-- `YCastHandler.do_GET`: every request first re-runs
`self.server.source.get_stations()` on the current file content — with
`stations_by_id` the content the persistent `self.stations_by_id` index
carries over from earlier requests (`[]` in a fresh process) — then
dispatches on the request target. -/
def do_GET (http : HttpOracle) (file : FileInput)
    (stations_by_id : List (Nat × String × String)) (raw : String) : Outcome :=
  match get_stations file stations_by_id with
  | .exited c n => .exitProcess c n
  | .raised e => .crash e
  | .ok cat => dispatch http cat raw

/-! ## Reference (spec-side) descriptions of the walk -/

mutual
/-- Total station count below one value (spec: "N = total station
count"). -/
def countV : YVal → Nat
  | .str _ => 1
  | .dict d => countD d
/-- Total station count of a configuration mapping. -/
def countD : YDict → Nat
  | .nil => 0
  | .cons _ v rest => countV v + countD rest
end

mutual
/-- The stations below one value in pre-order, as `(name, url)` pairs. -/
def preorderV (k : String) : YVal → List (String × String)
  | .str s => [(k, s)]
  | .dict d => preorderD d
/-- The stations of a configuration in pre-order as-stored document order
(spec: "a deterministic pre-order walk of the tree"). -/
def preorderD : YDict → List (String × String)
  | .nil => []
  | .cons k v rest => preorderV k v ++ preorderD rest
end

/-! ## Concrete data used in witnesses and counterexamples -/

/-- A network oracle whose requests all come back as redirects. -/
def oracleRedirect : HttpOracle := fun _ => .resp (some "http://cdn.example/final")

/-- A network oracle whose requests come back without a redirect
(`get_redirect_location()` yields `False`/`None`). -/
def oracleNoRedirect : HttpOracle := fun _ => .resp none

/-- A network oracle whose requests raise. -/
def oracleRaise : HttpOracle := fun _ => .raise

/-- The two-category example configuration of the spec's end-to-end test. -/
def sampleCfg : YDict :=
  .cons "News" (.dict (.cons "BBC" (.str "BBC - auto:http://bbc/stream") .nil))
    (.cons "Music" (.dict (.cons "Jazz FM" (.str "Jazz - auto:http://jazz/stream") .nil))
      .nil)

/-- A catalog tree with ten top-level categories whose stored order is
scrambled relative to their case-insensitive alphabetical order. -/
def tenDict : SDict :=
  .cons "Juliet" (.dict .nil)
    (.cons "alpha" (.dict .nil)
      (.cons "Hotel" (.dict .nil)
        (.cons "Bravo" (.dict .nil)
          (.cons "india" (.dict .nil)
            (.cons "charlie" (.dict .nil)
              (.cons "golf" (.dict .nil)
                (.cons "Delta" (.dict .nil)
                  (.cons "Foxtrot" (.dict .nil)
                    (.cons "echo" (.dict .nil) .nil)))))))))

/-- One-category configuration `{"Alpha": {}}`. -/
def cfgA : YDict := .cons "Alpha" (.dict .nil) .nil

/-- One-category configuration `{"Beta": {}}`. -/
def cfgB : YDict := .cons "Beta" (.dict .nil) .nil

/-- Configuration `{"A": {"B": "http://b/stream"}}`: category `A` holding
the single station `B`. -/
def cfgAB : YDict :=
  .cons "A" (.dict (.cons "B" (.str "http://b/stream") .nil)) .nil

/-- A URL of the one hosting provider `filter_url` rewrites. -/
def stwUrl : String := "http://playerservices.streamtheworld.com/pls/x"

/-- A configuration with a station string directly at the top level next to
a normal category. -/
def cfgMixed : YDict :=
  .cons "Solo" (.str "http://solo/stream")
    (.cons "News" (.dict (.cons "BBC" (.str "BBC - auto:http://bbc/stream") .nil)) .nil)

/-! ## Order lemmas for the case-insensitive sort -/

theorem charLt_true {a b : Char} : charLt a b = true ↔ a.toNat < b.toNat := by
  simp [charLt]

theorem charLt_false {a b : Char} : charLt a b = false ↔ ¬a.toNat < b.toNat := by
  simp [charLt]

theorem lexLt_asymm : ∀ x y : List Char, lexLt x y = true → lexLt y x = false
  | [], [], h => by simp [lexLt] at h
  | [], _ :: _, _ => by simp [lexLt]
  | _ :: _, [], h => by simp [lexLt] at h
  | a :: as, b :: bs, h => by
    simp only [lexLt] at h ⊢
    rcases Nat.lt_trichotomy a.toNat b.toNat with hc | hc | hc
    · have e1 : charLt a b = true := charLt_true.mpr hc
      have e2 : charLt b a = false := charLt_false.mpr (by omega)
      simp [e1, e2]
    · have e1 : charLt a b = false := charLt_false.mpr (by omega)
      have e2 : charLt b a = false := charLt_false.mpr (by omega)
      simp only [e1, e2, if_false, Bool.false_eq_true] at h ⊢
      exact lexLt_asymm as bs h
    · have e1 : charLt a b = false := charLt_false.mpr (by omega)
      have e2 : charLt b a = true := charLt_true.mpr hc
      simp [e1, e2] at h

theorem lexLt_or : ∀ x z y : List Char,
    lexLt x z = true → lexLt x y = true ∨ lexLt y z = true
  | [], [], _, h => by simp [lexLt] at h
  | [], _ :: _, [], h => .inr h
  | [], _ :: _, _ :: _, _ => .inl (by simp [lexLt])
  | _ :: _, [], _, h => by simp [lexLt] at h
  | _ :: _, _ :: _, [], _ => .inr (by simp [lexLt])
  | a :: as, c :: cs, b :: bs, h => by
    simp only [lexLt] at h ⊢
    rcases Nat.lt_trichotomy a.toNat c.toNat with hac | hac | hac
    · rcases Nat.lt_trichotomy a.toNat b.toNat with hab | hab | hab
      · exact .inl (by simp [charLt_true.mpr hab])
      · exact .inr (by simp [charLt_true.mpr (show b.toNat < c.toNat by omega)])
      · exact .inr (by simp [charLt_true.mpr (show b.toNat < c.toNat by omega)])
    · have e1 : charLt a c = false := charLt_false.mpr (by omega)
      have e2 : charLt c a = false := charLt_false.mpr (by omega)
      simp only [e1, e2, if_false, Bool.false_eq_true] at h
      rcases Nat.lt_trichotomy a.toNat b.toNat with hab | hab | hab
      · exact .inl (by simp [charLt_true.mpr hab])
      · rcases lexLt_or as cs bs h with hl | hr
        · refine .inl ?_
          have e3 : charLt a b = false := charLt_false.mpr (by omega)
          have e4 : charLt b a = false := charLt_false.mpr (by omega)
          simp [e3, e4, hl]
        · refine .inr ?_
          have e3 : charLt b c = false := charLt_false.mpr (by omega)
          have e4 : charLt c b = false := charLt_false.mpr (by omega)
          simp [e3, e4, hr]
      · exact .inr (by simp [charLt_true.mpr (show b.toNat < c.toNat by omega)])
    · have e1 : charLt a c = false := charLt_false.mpr (by omega)
      have e2 : charLt c a = true := charLt_true.mpr hac
      simp [e1, e2] at h

theorem keyLe_total (a b : String) : keyLeP a b ∨ keyLeP b a := by
  unfold keyLeP keyLe
  cases h : lexLt (pyLower b).data (pyLower a).data with
  | false => exact .inl (by simp)
  | true => exact .inr (by rw [lexLt_asymm _ _ h]; rfl)

theorem keyLe_trans (a b c : String) (h1 : keyLeP a b) (h2 : keyLeP b c) : keyLeP a c := by
  unfold keyLeP keyLe at h1 h2 ⊢
  cases h : lexLt (pyLower c).data (pyLower a).data with
  | false => rfl
  | true =>
    rcases lexLt_or _ _ (pyLower b).data h with hl | hr
    · rw [hl] at h2; simp at h2
    · rw [hr] at h1; simp at h1

theorem sortKeys_perm (d : SDict) : (sortKeys d).Perm d.keys :=
  List.perm_insertionSort keyLeP d.keys

theorem sortKeys_sorted (d : SDict) : List.Sorted keyLeP (sortKeys d) := by
  haveI : IsTotal String keyLeP := ⟨keyLe_total⟩
  haveI : IsTrans String keyLeP := ⟨fun a b c => keyLe_trans a b c⟩
  exact List.sorted_insertionSort keyLeP d.keys

/-! ## Python slice lemmas -/

theorem take_min_length {α : Type} (l : List α) (n : Nat) :
    l.take (min n l.length) = l.take n := by
  rcases le_total n l.length with h | h
  · rw [min_eq_left h]
  · rw [min_eq_right h, List.take_length, List.take_of_length_le h]

theorem take_drop_window {α : Type} (l : List α) (a s : Nat) :
    (l.take (min (a + s) l.length)).drop (min a l.length) = (l.drop a).take s := by
  rw [take_min_length]
  rcases le_total a l.length with h | h
  · rw [min_eq_left h, List.drop_take]
    congr 1
    omega
  · rw [min_eq_right h, List.take_of_length_le (by omega : l.length ≤ a + s),
      List.drop_length, List.drop_of_length_le h, List.take_nil]

theorem pySlice_window {α : Type} (l : List α) (start size : Int)
    (h1 : 1 ≤ start) (h2 : 0 ≤ size) :
    pySlice l (start - 1) (start - 1 + size)
      = (l.drop (start - 1).toNat).take size.toNat := by
  unfold pySlice pyIndex
  rw [if_neg (show ¬(start - 1 + size < 0) by omega),
    if_neg (show ¬(start - 1 < 0) by omega)]
  have e1 : (start - 1 + size).toNat = (start - 1).toNat + size.toNat := by omega
  rw [e1]
  exact take_drop_window l _ _

theorem pySlice_full {α : Type} (l : List α) :
    pySlice l 0 (0 + (l.length : Int)) = l := by
  unfold pySlice pyIndex
  rw [if_neg (show ¬((0 : Int) + (l.length : Int) < 0) by omega),
    if_neg (show ¬((0 : Int) < 0) by omega)]
  have e1 : ((0 : Int) + (l.length : Int)).toNat = l.length := by omega
  have e2 : ((0 : Int)).toNat = 0 := rfl
  rw [e1, e2, min_self, List.take_length, Nat.zero_min, List.drop_zero]

/-! ## The id-assignment walk -/

mutual
theorem walktreeVal_spec (k : String) (v : YVal) (n : Nat) :
    (walktreeVal k v n).2.2 = n + countV v
    ∧ (walktreeVal k v n).2.1.map (fun e => e.1) = List.range' n (countV v)
    ∧ (walktreeVal k v n).2.1.map (fun e => e.2) = preorderV k v := by
  cases v with
  | str s => simp [walktreeVal, countV, preorderV, List.range']
  | dict d =>
    have h := walktree_spec d n
    simpa [walktreeVal, countV, preorderV] using h
theorem walktree_spec (d : YDict) (n : Nat) :
    (walktree d n).2.2 = n + countD d
    ∧ (walktree d n).2.1.map (fun e => e.1) = List.range' n (countD d)
    ∧ (walktree d n).2.1.map (fun e => e.2) = preorderD d := by
  cases d with
  | nil => simp [walktree, countD, preorderD]
  | cons k v rest =>
    have h1 := walktreeVal_spec k v n
    have h2 := walktree_spec rest (walktreeVal k v n).2.2
    refine ⟨?_, ?_, ?_⟩
    · show (walktree rest (walktreeVal k v n).2.2).2.2 = n + countD (.cons k v rest)
      rw [h2.1, h1.1, countD]
      omega
    · show ((walktreeVal k v n).2.1
            ++ (walktree rest (walktreeVal k v n).2.2).2.1).map (fun e => e.1)
          = List.range' n (countD (.cons k v rest))
      rw [List.map_append, h1.2.1, h2.2.1, h1.1, List.range'_append_1, countD,
        Nat.add_comm (countV v)]
    · show ((walktreeVal k v n).2.1
            ++ (walktree rest (walktreeVal k v n).2.2).2.1).map (fun e => e.2)
          = preorderD (.cons k v rest)
      rw [List.map_append, h1.2.2, h2.2.2, preorderD]
end

theorem walktree_keys : ∀ (d : YDict) (n : Nat), ((walktree d n).1).keys = d.keys
  | .nil, _ => rfl
  | .cons k v rest, n => by
    show (SDict.cons k (walktreeVal k v n).1
        ((walktree rest (walktreeVal k v n).2.2).1)).keys = k :: rest.keys
    rw [SDict.keys, walktree_keys rest _]

theorem walktree_find_str : ∀ (d : YDict) (n : Nat) (k s : String),
    d.find? k = some (.str s) →
    ∃ i : Nat, ((walktree d n).1).find? k = some (.station i s)
  | .nil, _, _, _, h => by simp [YDict.find?] at h
  | .cons k0 v rest, n, k, s, h => by
    by_cases hk : (k0 == k) = true
    · rw [YDict.find?, if_pos hk] at h
      have hv : v = .str s := Option.some.inj h
      subst hv
      refine ⟨n, ?_⟩
      show (SDict.cons k0 (walktreeVal k0 (.str s) n).1
          ((walktree rest (walktreeVal k0 (.str s) n).2.2).1)).find? k
          = some (.station n s)
      rw [SDict.find?, if_pos hk]
      rfl
    · rw [YDict.find?, if_neg hk] at h
      obtain ⟨i, hi⟩ := walktree_find_str rest (walktreeVal k0 v n).2.2 k s h
      refine ⟨i, ?_⟩
      show (SDict.cons k0 (walktreeVal k0 v n).1
          ((walktree rest (walktreeVal k0 v n).2.2).1)).find? k
          = some (.station i s)
      rw [SDict.find?, if_neg hk]
      exact hi

theorem find?_mem_keys : ∀ (d : SDict) (k : String) (v : SVal),
    d.find? k = some v → k ∈ d.keys
  | .nil, _, _, h => by simp [SDict.find?] at h
  | .cons k0 v0 rest, k, v, h => by
    by_cases hk : (k0 == k) = true
    · exact List.mem_cons.mpr (.inl (eq_of_beq hk).symm)
    · rw [SDict.find?, if_neg hk] at h
      exact List.mem_cons.mpr (.inr (find?_mem_keys rest k v h))

theorem keys_length : ∀ d : SDict, d.keys.length = d.size
  | .nil => rfl
  | .cons _ _ rest => by simp [SDict.keys, SDict.size, keys_length rest]

/-! ## The listing loop -/

theorem buildItem_title (http : HttpOracle) (hierarchy : String) (es : SDict)
    (item : String) (xi : XItem) (h : buildItem http hierarchy es item = .ok xi) :
    titleOf xi = item := by
  unfold buildItem at h
  split at h
  · simp at h
  · simp at h
    subst h
    rfl
  · split at h
    · simp at h
    · simp at h
      subst h
      rfl

theorem exceptCons_ok (x : Except PyErr XItem) (t : Except PyErr (List XItem))
    (items : List XItem) (h : exceptCons x t = .ok items) :
    ∃ xi tail, x = .ok xi ∧ t = .ok tail ∧ items = xi :: tail := by
  unfold exceptCons at h
  revert h
  cases x with
  | error e => intro h; simp at h
  | ok xi =>
    cases t with
    | error e => intro h; simp at h
    | ok tail =>
      intro h
      simp at h
      exact ⟨xi, tail, rfl, rfl, h.symm⟩

theorem buildItems_titles (http : HttpOracle) (hierarchy : String) (es : SDict) :
    ∀ (l : List String) (items : List XItem),
      buildItems http hierarchy es l = .ok items → items.map titleOf = l
  | [], items, h => by
    rw [buildItems] at h
    simp at h
    subst h
    rfl
  | item :: rest, items, h => by
    rw [buildItems] at h
    obtain ⟨xi, tail, hx, ht, hi⟩ := exceptCons_ok _ _ _ h
    subst hi
    simp [buildItem_title http hierarchy es item xi hx,
      buildItems_titles http hierarchy es rest tail ht]

theorem build_find_str (cfg : YDict) (k url : String)
    (h : cfg.find? k = some (.str url)) :
    ∃ i : Nat, ((build cfg).stations).find? k = some (.station i url) :=
  walktree_find_str cfg 1 k url h

/-! ## The claims -/

/-- C1: for every configuration mapping, catalog build assigns each station
(string leaf) a unique integer id in `[1, N]` (`N` = total station count),
by a pre-order walk in as-stored document order starting at 1 and
incrementing per station encountered.  The id column of `stations_by_id`
is exactly `List.range' 1 N`, hence without duplicates and within
`[1, N]`, and the `(name, url)` column is exactly the pre-order station
list.  `build` is a pure function of the configuration, so rebuilding from
the same configuration reproduces identical ids. -/
theorem claim_C1_preorder_unique_ids (cfg : YDict) :
    (build cfg).byId.map (fun e => e.1) = List.range' 1 (countD cfg)
    ∧ ((build cfg).byId.map (fun e => e.1)).Nodup
    ∧ (∀ i ∈ (build cfg).byId.map (fun e => e.1), 1 ≤ i ∧ i ≤ countD cfg)
    ∧ (build cfg).byId.map (fun e => e.2) = preorderD cfg := by
  have h := walktree_spec cfg 1
  have hids : (build cfg).byId.map (fun e => e.1) = List.range' 1 (countD cfg) := h.2.1
  refine ⟨hids, ?_, ?_, h.2.2⟩
  · rw [hids]
    exact List.nodup_range' _ _
  · rw [hids]
    intro i hi
    rw [List.mem_range'_1] at hi
    omega

/-- C1, witness: the theorem applied to the two-station sample
configuration, with the membership hypothesis of its third conjunct
discharged at id 1. -/
theorem claim_C1_witness :
    (build sampleCfg).byId.map (fun e => e.1) = List.range' 1 (countD sampleCfg)
    ∧ (1 ≤ 1 ∧ 1 ≤ countD sampleCfg) :=
  ⟨(claim_C1_preorder_unique_ids sampleCfg).1,
    (claim_C1_preorder_unique_ids sampleCfg).2.2.1 1 (by decide)⟩

/-- C2, counterexample: the claim promises defaults `start=1, size=8` for a
root listing whose query omits the pagination parameters, but a request for
the init path with no query makes `int(url_query_split['start'][0])` raise
an uncaught `KeyError`: no listing is produced at all. -/
theorem claim_C2_counterexample :
    do_GET oracleRedirect (.doc (.mapping sampleCfg)) [] VTUNER_INITURL = .crash .keyError
    ∧ do_GET oracleRedirect (.doc (.mapping sampleCfg)) [] VTUNER_INITURL
      ≠ .resp (.xmlList true (reply_with_dir (build sampleCfg).stations 0 8)) :=
  ⟨by decide, by decide⟩

/-- C2, amended: for every listing operation the rendered items are the
children sorted by name case-insensitively, restricted to the window
`[start-1, start-1+size)` of that sorted order (1-based `start`): conjunct
1 for the root/alias listing, conjuncts 2 (the sort is a sorted permutation
of the children) and 3 (category listing) for the rest.  The defaults
`start=1, size=8` apply to the alias root listing (conjunct 4) and to the
category listing when the query omits the parameters (conjunct 5) — but
not to the init-path root listing, which requires both parameters and
raises a `KeyError` when they are omitted (conjunct 7).  Conjunct 6 checks
the 10-item windows: `start=1&howmany=8` yields sorted items 1-8 and
`start=9&howmany=8` yields items 9-10 only. -/
theorem claim_C2_pagination_amended :
    (∀ (st : SDict) (start size : Int), 1 ≤ start → 0 ≤ size →
        (reply_with_dir st (start - 1) size).map titleOf
          = ((sortKeys st).drop (start - 1).toNat).take size.toNat)
    ∧ (∀ st : SDict, (sortKeys st).Perm st.keys ∧ List.Sorted keyLeP (sortKeys st))
    ∧ (∀ (http : HttpOracle) (st : SDict) (hierarchy : String) (start size : Int)
        (es : SDict) (items : List XItem),
        by_hierarchy st hierarchy = .ok (.dict es) →
        reply_with_mixed_list http st hierarchy (start - 1) size = .ok items →
        1 ≤ start → 0 ≤ size →
        items.map titleOf = ((sortKeys es).drop (start - 1).toNat).take size.toNat)
    ∧ (∀ (http : HttpOracle) (cat : Catalog),
        dispatch http cat "/" = .resp (.xmlList true (reply_with_dir cat.stations 0 8)))
    ∧ (∀ q : List (String × String), qget q "start" = none → tryPagination q = .ok (1, 8))
    ∧ ((reply_with_dir tenDict 0 8).map titleOf
          = ["alpha", "Bravo", "charlie", "Delta", "echo", "Foxtrot", "golf", "Hotel"]
        ∧ (reply_with_dir tenDict 8 8).map titleOf = ["india", "Juliet"])
    ∧ (∀ (http : HttpOracle) (cat : Catalog),
        dispatch http cat VTUNER_INITURL = .crash .keyError) := by
  refine ⟨?_, ?_, ?_, ?_, ?_, ⟨by decide, by decide⟩, ?_⟩
  · intro st start size h1 h2
    unfold reply_with_dir
    rw [pySlice_window _ _ _ h1 h2, List.map_map]
    have he : (titleOf ∘ fun category =>
        XItem.dir category (dirUrl category)
          (toString (SVal.pyLen ((st.find? category).getD (.dict .nil))))) = id := by
      funext c
      rfl
    rw [he, List.map_id]
  · intro st
    exact ⟨sortKeys_perm st, sortKeys_sorted st⟩
  · intro http st hierarchy start size es items hbh hml h1 h2
    unfold reply_with_mixed_list at hml
    simp only [hbh] at hml
    rw [buildItems_titles http hierarchy es _ items hml, pySlice_window _ _ _ h1 h2]
  · intro http cat
    rfl
  · intro q hq
    simp [tryPagination, hq]
  · intro http cat
    rfl

/-- C2, witness: the amended window equation applied to the ten-item tree
at `start = 9`, `size = 8`, both hypotheses discharged. -/
theorem claim_C2_witness :
    (reply_with_dir tenDict ((9 : Int) - 1) 8).map titleOf
      = ((sortKeys tenDict).drop ((9 : Int) - 1).toNat).take (8 : Int).toNat :=
  claim_C2_pagination_amended.1 tenDict 9 8 (by decide) (by decide)

/-- C3: a station-detail lookup whose id misses `stations_by_id` answers
with exactly one station item: the name is
`DEFAULTSTATION.partition('&')[0]` (the whole descriptor string, since
`DEFAULTSTATION` contains no `&`), the id is the sentinel `999999`, and
the URL is the empty partition remainder (which `filter_url` passes
through untouched) — a 200 reply, never an error body. -/
theorem claim_C3_unknown_id_default (http : HttpOracle) (cat : Catalog) (sid : Int)
    (h : by_id cat sid = none) :
    do_station_detail http cat sid
      = .resp (.xmlList false
          [.station (pyPartitionChar DEFAULTSTATION '&').1 "999999" (some "")]) := by
  have e1 : ∀ httpX : HttpOracle,
      filter_url httpX (pyPartitionChar DEFAULTSTATION '&').2.2 = .ok (some "") := by
    intro httpX
    unfold filter_url
    simp [show (pyPartitionChar DEFAULTSTATION '&').2.2 = "" from by decide,
      show containsSub "streamtheworld.com/" "" = false from by decide]
  unfold do_station_detail
  rw [h]
  simp [e1, show toString (999999 : Int) = "999999" from by decide]

/-- C3, witness: the theorem applied to the sample catalog at the unknown
id 5. -/
theorem claim_C3_witness :
    by_id (build sampleCfg) 5 = none
    ∧ do_station_detail oracleRedirect (build sampleCfg) 5
      = .resp (.xmlList false
          [.station (pyPartitionChar DEFAULTSTATION '&').1 "999999" (some "")]) :=
  ⟨by decide, claim_C3_unknown_id_default oracleRedirect (build sampleCfg) 5 (by decide)⟩

/-- C4, counterexample: the claim promises a not-found response when `id`
(station detail) or `category` (category listing) is missing, but both
`int(url_query_split['id'][0])` and `url_query_split['category'][0]` sit
outside every `try`: the handler crashes with an uncaught `KeyError` and
no 404 is sent. -/
theorem claim_C4_counterexample :
    do_GET oracleRedirect (.doc (.mapping sampleCfg)) [] (VTUNER_STATURL ++ "?start=1")
      = .crash .keyError
    ∧ do_GET oracleRedirect (.doc (.mapping sampleCfg)) []
        ("/" ++ YCAST_LOCATION ++ "?start=1&howmany=8") = .crash .keyError
    ∧ do_GET oracleRedirect (.doc (.mapping sampleCfg)) [] (VTUNER_STATURL ++ "?start=1")
      ≠ .resp .notFound
    ∧ do_GET oracleRedirect (.doc (.mapping sampleCfg)) []
        ("/" ++ YCAST_LOCATION ++ "?start=1&howmany=8") ≠ .resp .notFound :=
  ⟨by decide, by decide, by decide, by decide⟩

/-- C4, amended: a station-detail request without `id`, and a category
listing request without `category`, make the handler raise an unhandled
`KeyError` (the request produces no response at all) instead of degrading
to a not-found response. -/
theorem claim_C4_missing_param_amended :
    (∀ (http : HttpOracle) (cat : Catalog) (raw : String),
        ((splitQ raw).1 == VTUNER_INITURL) = false →
        pyStartsWith raw VTUNER_STATURL = true →
        qget (parse_qsl (splitQ raw).2) "id" = none →
        dispatch http cat raw = .crash .keyError)
    ∧ (∀ (http : HttpOracle) (cat : Catalog) (raw : String),
        ((splitQ raw).1 == VTUNER_INITURL) = false →
        pyStartsWith raw VTUNER_STATURL = false →
        (raw == "/" || raw == "/" ++ YCAST_LOCATION || raw == "/" ++ YCAST_LOCATION ++ "/"
          || pyStartsWith raw VTUNER_INITURL) = false →
        pyStartsWith raw ("/" ++ YCAST_LOCATION ++ "?") = true →
        qget (parse_qsl (splitQ raw).2) "category" = none →
        dispatch http cat raw = .crash .keyError) := by
  constructor
  · intro http cat raw h1 h2 h3
    simp [dispatch, h1, h2, h3]
  · intro http cat raw h1 h2 h3 h4 h5
    simp [dispatch, h1, h2, h3, h4, h5]

/-- C4, witness: the amended statement applied to a concrete station-detail
request without `id`. -/
theorem claim_C4_witness :
    dispatch oracleRedirect (build sampleCfg) (VTUNER_STATURL ++ "?start=1")
      = .crash .keyError :=
  claim_C4_missing_param_amended.1 oracleRedirect (build sampleCfg)
    (VTUNER_STATURL ++ "?start=1") (by decide) (by decide) (by decide)

/-- C5: on `{"A": {"B": station}}`, the category path `A|B|C` addresses the
station tuple `B` where a category was expected; `current_dir[category]`
then indexes a tuple with a string and raises `TypeError`, which the
`except KeyError` guard does not catch — the handler crashes instead of
sending the not-found response the claim (and the spec's `NotFoundError`
contract) requires.  An absent segment (`A|nope`) does produce the 404. -/
theorem claim_C5_unresolved_path_eval :
    do_GET oracleRedirect (.doc (.mapping cfgAB)) []
      ("/" ++ YCAST_LOCATION ++ "?category=A|B|C") = .crash .typeError
    ∧ do_GET oracleRedirect (.doc (.mapping cfgAB)) []
      ("/" ++ YCAST_LOCATION ++ "?category=A|nope") = .resp .notFound :=
  ⟨by decide, by decide⟩

/-- C6, counterexample: for a `streamtheworld.com/` URL whose request comes
back without a redirect, `get_redirect_location()` yields `False`/`None`
and `filter_url` returns that instead of the input URL; a raising request
propagates out of `filter_url`. -/
theorem claim_C6_counterexample :
    filter_url oracleNoRedirect stwUrl = .ok none
    ∧ filter_url oracleNoRedirect stwUrl ≠ .ok (some stwUrl)
    ∧ filter_url oracleRaise stwUrl = .error .httpError := by
  refine ⟨rfl, fun h => ?_, rfl⟩
  have e : filter_url oracleNoRedirect stwUrl = .ok none := rfl
  rw [e] at h
  simp at h

/-- C6, amended: `filter_url` passes URLs of non-matching hosts through
unchanged without touching the network; for a matching host it returns
whatever the redirect probe yields — the redirect location when there is
one, `None` when there is none — and it raises when the request raises. -/
theorem claim_C6_filter_url_amended :
    (∀ (http : HttpOracle) (url : String),
        containsSub "streamtheworld.com/" url = false →
        filter_url http url = .ok (some url))
    ∧ (∀ (http : HttpOracle) (url : String),
        containsSub "streamtheworld.com/" url = true →
        filter_url http url
          = match http url with
            | .raise => .error .httpError
            | .resp loc => .ok loc) := by
  constructor
  · intro http url h
    unfold filter_url
    rw [h]
    rfl
  · intro http url h
    unfold filter_url
    rw [h]
    rfl

/-- C6, witness: the pass-through conjunct applied to a non-matching URL
under the raising oracle. -/
theorem claim_C6_witness :
    filter_url oracleRaise "http://example.com/a" = .ok (some "http://example.com/a") :=
  claim_C6_filter_url_amended.1 oracleRaise "http://example.com/a" (by decide)

/-- C7, counterexample: were the catalog built once at process start and
only read afterwards, two identical requests would get identical replies
regardless of what the configuration file holds at request time; but
`do_GET` re-reads the file, so the same root request answers differently
under the two file states `cfgA` and `cfgB`. -/
theorem claim_C7_counterexample :
    do_GET oracleRedirect (.doc (.mapping cfgA)) [] "/"
      ≠ do_GET oracleRedirect (.doc (.mapping cfgB)) [] "/" := by decide

/-- C7, amended: the catalog is neither built once at startup nor fully
rebuilt per request.  Every `do_GET` re-runs `get_stations`, which
re-reads the configuration file and replaces `self.stations` wholesale —
so listings always reflect the current file (conjuncts 2-3, for any
carried-over index) — but `self.stations_by_id` is never cleared: the walk
only inserts into it (conjunct 1, the per-request factorization with the
prior index surviving behind the fresh entries).  Hence after the
two-station generation `sampleCfg` the file shrinks to the one-station
`cfgAB`: a station-detail request for id 2 still serves the stale
previous-generation station `Jazz FM` (conjunct 4), where the freshly
built catalog alone would answer with the default station (conjunct 6);
the re-assigned id 1 is served from the fresh generation (conjunct 5). -/
theorem claim_C7_rebuild_amended :
    (∀ (http : HttpOracle) (es : YDict) (prior : List (Nat × String × String))
        (raw : String),
        do_GET http (.doc (.mapping es)) prior raw
          = dispatch http ⟨(set_station_by_id es).1, (set_station_by_id es).2 ++ prior⟩ raw)
    ∧ (∀ prior : List (Nat × String × String),
        do_GET oracleRedirect (.doc (.mapping cfgA)) prior "/"
          = .resp (.xmlList true (reply_with_dir (build cfgA).stations 0 8)))
    ∧ (∀ prior : List (Nat × String × String),
        do_GET oracleRedirect (.doc (.mapping cfgB)) prior "/"
          = .resp (.xmlList true (reply_with_dir (build cfgB).stations 0 8)))
    ∧ do_GET oracleRedirect (.doc (.mapping cfgAB)) (set_station_by_id sampleCfg).2
        (VTUNER_STATURL ++ "?id=2")
        = .resp (.xmlList false
            [.station "Jazz FM" "2" (some "Jazz - auto:http://jazz/stream")])
    ∧ do_GET oracleRedirect (.doc (.mapping cfgAB)) (set_station_by_id sampleCfg).2
        (VTUNER_STATURL ++ "?id=1")
        = .resp (.xmlList false [.station "B" "1" (some "http://b/stream")])
    ∧ do_GET oracleRedirect (.doc (.mapping cfgAB)) [] (VTUNER_STATURL ++ "?id=2")
        = .resp (.xmlList false
            [.station (pyPartitionChar DEFAULTSTATION '&').1 "999999" (some "")]) :=
  ⟨fun _ _ _ _ => rfl, fun _ => rfl, fun _ => rfl, by decide, by decide, by decide⟩

/-- C8, counterexample: a malformed source (not a mapping at top level)
does not abort with a non-zero exit after one diagnostic line; `yaml.load`
succeeds and `walktree`'s `.items()` raises an uncaught
`AttributeError`. -/
theorem claim_C8_counterexample :
    get_stations (.doc .nonMapping) [] = .raised .attributeError
    ∧ (get_stations (.doc .nonMapping) []).isExited = false :=
  ⟨rfl, rfl⟩

/-- C8, amended: only the missing-file case is answered by one diagnostic
log line and `sys.exit(1)`; unparsable YAML raises, a non-mapping document
raises `AttributeError`, a mapping loads into the station tree (the fresh
walk's index entries sitting in front of whatever the persistent
`stations_by_id` already held, `build es` in a fresh process) — and all of
this happens during request handling (`do_GET`), not at startup. -/
theorem claim_C8_load_amended :
    (∀ prior : List (Nat × String × String), get_stations .missing prior = .exited 1 1)
    ∧ (∀ prior : List (Nat × String × String),
        get_stations .unparsable prior = .raised .yamlError)
    ∧ (∀ (es : YDict) (prior : List (Nat × String × String)),
        get_stations (.doc (.mapping es)) prior
          = .ok ⟨(set_station_by_id es).1, (set_station_by_id es).2 ++ prior⟩)
    ∧ (∀ es : YDict, get_stations (.doc (.mapping es)) [] = .ok (build es))
    ∧ (∀ (http : HttpOracle) (prior : List (Nat × String × String)) (raw : String),
        do_GET http .missing prior raw = .exitProcess 1 1)
    ∧ (∀ (http : HttpOracle) (prior : List (Nat × String × String)) (raw : String),
        do_GET http .unparsable prior raw = .crash .yamlError)
    ∧ (∀ (http : HttpOracle) (prior : List (Nat × String × String)) (raw : String),
        do_GET http (.doc .nonMapping) prior raw = .crash .attributeError) := by
  refine ⟨fun _ => rfl, fun _ => rfl, fun _ _ => rfl, fun es => ?_, fun _ _ _ => rfl,
    fun _ _ _ => rfl, fun _ _ _ => rfl⟩
  simp [get_stations, build, List.append_nil]

/-- C9: in the category-listing branch, when `start` is supplied (and
numeric) but `howmany` is omitted, the `KeyError` on `howmany` sends the
handler into the `except` block, which discards the supplied `start` and
sets both parameters to the defaults `start=1, size=8`; only when both are
present is the supplied window used. -/
theorem claim_C9_pagination_defaults :
    (∀ (q : List (String × String)) (s : String) (n : Int),
        qget q "start" = some s → pyInt s = some n → qget q "howmany" = none →
        tryPagination q = .ok (1, 8))
    ∧ (∀ (q : List (String × String)) (s h : String) (sn hn : Int),
        qget q "start" = some s → pyInt s = some sn →
        qget q "howmany" = some h → pyInt h = some hn →
        tryPagination q = .ok (sn, hn)) := by
  constructor
  · intro q s n h1 h2 h3
    simp [tryPagination, h1, h2, h3]
  · intro q s h sn hn h1 h2 h3 h4
    simp [tryPagination, h1, h2, h3, h4]

/-- C9, witness: both conjuncts applied to concrete queries. -/
theorem claim_C9_witness :
    tryPagination [("start", "5")] = .ok (1, 8)
    ∧ tryPagination [("start", "5"), ("howmany", "7")] = .ok (5, 7) :=
  ⟨claim_C9_pagination_defaults.1 [("start", "5")] "5" 5 (by decide) (by decide) (by decide),
    claim_C9_pagination_defaults.2 [("start", "5"), ("howmany", "7")] "5" "7" 5 7
      (by decide) (by decide) (by decide) (by decide)⟩

/-- C10: a station string stored directly at the top level is rewritten by
the id walk into its `(id, url)` pair, and the root listing renders every
top-level entry as a directory item — so this entry appears as
`ItemType=Dir` with `DirCount = str(len((id, url))) = "2"` (second
conjunct, over the window covering the whole listing), and no root listing
window ever renders a station item (first conjunct). -/
theorem claim_C10_toplevel_station_dir (cfg : YDict) (k url : String)
    (h : cfg.find? k = some (.str url)) :
    (∀ (start size : Int), ∀ it ∈ reply_with_dir (build cfg).stations start size,
        it.isStation = false)
    ∧ XItem.dir k (dirUrl k) "2"
        ∈ reply_with_dir (build cfg).stations 0 ((build cfg).stations.size : Int) := by
  constructor
  · intro start size it hit
    unfold reply_with_dir at hit
    obtain ⟨c, _, hce⟩ := List.mem_map.mp hit
    rw [← hce]
    rfl
  · obtain ⟨i, hfind⟩ := build_find_str cfg k url h
    have hkmem : k ∈ (build cfg).stations.keys := find?_mem_keys _ k _ hfind
    have hsort : k ∈ sortKeys (build cfg).stations :=
      ((sortKeys_perm _).mem_iff).mpr hkmem
    have hlen : (sortKeys (build cfg).stations).length = (build cfg).stations.size := by
      rw [(sortKeys_perm _).length_eq, keys_length]
    unfold reply_with_dir
    have hfull : pySlice (sortKeys (build cfg).stations) 0
        (0 + ((build cfg).stations.size : Int)) = sortKeys (build cfg).stations := by
      have hp := pySlice_full (sortKeys (build cfg).stations)
      rw [hlen] at hp
      exact hp
    rw [hfull]
    refine List.mem_map.mpr ⟨k, hsort, ?_⟩
    simp only [hfind, Option.getD_some]
    rw [show SVal.pyLen (SVal.station i url) = 2 from by simp [SVal.pyLen],
      show toString (2 : Nat) = "2" from by decide]

/-- C10, witness: the directory-item conjunct at the concrete configuration
with the top-level station `Solo`. -/
theorem claim_C10_witness :
    XItem.dir "Solo" (dirUrl "Solo") "2"
      ∈ reply_with_dir (build cfgMixed).stations 0 ((build cfgMixed).stations.size : Int) :=
  (claim_C10_toplevel_station_dir cfgMixed "Solo" "http://solo/stream" (by decide)).2

end YCast
